import Mathlib

/-!
Verification development for the MUSeatFinder repository.

The repository contains three revisions of the same single-file program:
  * `src/index.js`               — legacy revision (recursive `searchCourses`,
                                   `parseInt` with an `isNaN` guard);
  * `src/seat-finder.js`         — v1.0 copy of the legacy file followed by the
                                   v2.0 rewrite (`CourseMonitor` with
                                   `{ notified: false }` records, `withRetry`,
                                   loop-based `seatFinder`);
  * `src/unnamed/part_000`       — v2.1, the latest revision (`pollOnce`,
                                   `seatFinder`, `withRetry`, `.map(Number)`
                                   parsing with no NaN guard).

The definitions below are a shallow embedding of the code that the claims are
about: the JavaScript `Number`/`parseInt` string coercions used by the seat
parsing, the per-CRN body of `pollOnce`, the `seatFinder` monitor loop of the
latest revision, and the v2.0 `CourseMonitor` registry.  JavaScript numbers
are modelled exactly: a finite value is a scaled integer `num / 10 ^ exp`
(`DecNum`), with `NaN` and signed infinity as separate constructors; all
realistic seat readings are small integers, so no floating-point rounding is
observable in the modelled comparisons.
-/

/-! ## JavaScript string-to-number coercion -/

/-- Exact decimal value `num / 10 ^ exp` of a finite JavaScript number. -/
structure DecNum where
  num : Int
  exp : Nat
deriving DecidableEq

/-- A JavaScript number as observed by the seat parsing: `NaN`, a signed
infinity, or a finite decimal value. -/
inductive JSNum where
  | nan
  | inf (isNeg : Bool)
  | fin (v : DecNum)
deriving DecidableEq

/-- The whitespace characters stripped by JS `Number` / `parseInt`. -/
def jsWhitespace (c : Char) : Bool :=
  (c == ' ') || (c == '\t') || (c == '\n') || (c == '\r') ||
  (c == '\x0b') || (c == '\x0c') || (c == '\xa0')

/-- Digit character to its numeric value. -/
def digToNat (c : Char) : Nat := c.toNat - '0'.toNat

/-- Value of a string of decimal digits. -/
def decValue (ds : List Char) : Nat :=
  ds.foldl (fun a c => 10 * a + digToNat c) 0

/-- Hex digit recogniser for `parseInt` / `Number` `0x` literals. -/
def isHexDigitB (c : Char) : Bool :=
  c.isDigit || (decide ('a' ≤ c) && decide (c ≤ 'f')) ||
  (decide ('A' ≤ c) && decide (c ≤ 'F'))

/-- Octal digit recogniser for `Number` `0o` literals. -/
def isOctDigitB (c : Char) : Bool := decide ('0' ≤ c) && decide (c ≤ '7')

/-- Binary digit recogniser for `Number` `0b` literals. -/
def isBinDigitB (c : Char) : Bool := (c == '0') || (c == '1')

/-- Value of a hex (or octal/binary) digit. -/
def hexDigitVal (c : Char) : Nat :=
  if c.isDigit then digToNat c
  else if decide ('a' ≤ c) && decide (c ≤ 'f') then c.toNat - 'a'.toNat + 10
  else c.toNat - 'A'.toNat + 10

/-- Value of a digit string in base `b`. -/
def radixValue (b : Nat) (ds : List Char) : Nat :=
  ds.foldl (fun a c => b * a + hexDigitVal c) 0

/-- Optional leading sign; returns (isPositive, rest). -/
def pSignB (cs : List Char) : Bool × List Char :=
  match cs with
  | a :: r => if a == '-' then (false, r) else if a == '+' then (true, r) else (true, cs)
  | [] => (true, cs)

/-- Strip JS whitespace from both ends (the trim `Number` applies). -/
def jsTrim (cs : List Char) : List Char :=
  ((cs.dropWhile jsWhitespace).reverse.dropWhile jsWhitespace).reverse

/-- Negation of a finite value. -/
def decNeg (v : DecNum) : DecNum := ⟨-v.num, v.exp⟩

/-- Multiply a finite value by `10 ^ k` (positive decimal exponent). -/
def decMulPow10 (v : DecNum) (k : Nat) : DecNum := ⟨v.num * (10 : Int) ^ k, v.exp⟩

/-- Divide a finite value by `10 ^ k` (negative decimal exponent). -/
def decDivPow10 (v : DecNum) (k : Nat) : DecNum := ⟨v.num, v.exp + k⟩

/-- Apply an optional `e`/`E` exponent suffix to a parsed mantissa; the suffix
must consume the rest of the string, else the literal is malformed. -/
def jsExponentApply (cs : List Char) (mant : DecNum) : Option DecNum :=
  match cs with
  | [] => some mant
  | e :: r =>
    if e == 'e' || e == 'E' then
      let sg := pSignB r
      let ed := sg.2.takeWhile Char.isDigit
      let r3 := sg.2.dropWhile Char.isDigit
      if ed.isEmpty || !r3.isEmpty then none
      else some (if sg.1 then decMulPow10 mant (decValue ed) else decDivPow10 mant (decValue ed))
    else none

/-- Strict decimal literal grammar of JS `Number`: `digits [. digits] [e sign
digits]`, at least one digit in the integer or fraction part, and the whole
string must be consumed. -/
def jsDecimal (cs : List Char) : Option DecNum :=
  let ip := cs.takeWhile Char.isDigit
  let r1 := cs.dropWhile Char.isDigit
  match r1 with
  | '.' :: r2 =>
    let fp := r2.takeWhile Char.isDigit
    let r3 := r2.dropWhile Char.isDigit
    if ip.isEmpty && fp.isEmpty then none
    else jsExponentApply r3 ⟨(decValue ip : Int) * (10 : Int) ^ fp.length + (decValue fp : Int), fp.length⟩
  | _ =>
    if ip.isEmpty then none
    else jsExponentApply r1 ⟨(decValue ip : Int), 0⟩

/-- The character list of the literal `Infinity`. -/
def infChars : List Char := ['I', 'n', 'f', 'i', 'n', 'i', 't', 'y']

/-- Signed decimal (or `Infinity`) branch of JS `Number`. -/
def jsNumSigned (cs : List Char) : JSNum :=
  let sg := pSignB cs
  if sg.2 = infChars then JSNum.inf (!sg.1)
  else
    match jsDecimal sg.2 with
    | some v => JSNum.fin (if sg.1 then v else decNeg v)
    | none => JSNum.nan

/-- Does the (already trimmed) string start with a `0x`/`0o`/`0b` radix
lead, which JS `Number` parses as an unsigned radix literal? -/
def isRadixLead (cs : List Char) : Bool :=
  match cs with
  | a :: b :: _ =>
    (a == '0') && ((b == 'x') || (b == 'X') || (b == 'o') || (b == 'O') || (b == 'b') || (b == 'B'))
  | _ => false

/-- Radix literal branch of JS `Number`: every remaining character must be a
digit of the radix and at least one digit must be present. -/
def numRadix (p : Char → Bool) (b : Nat) (ds : List Char) : JSNum :=
  if !ds.isEmpty && ds.all p then JSNum.fin ⟨(radixValue b ds : Int), 0⟩ else JSNum.nan

/-- Dispatch on the radix lead of a `0x`/`0o`/`0b` literal. -/
def jsRadix (cs : List Char) : JSNum :=
  match cs with
  | _ :: b :: rest =>
    if b == 'x' || b == 'X' then numRadix isHexDigitB 16 rest
    else if b == 'o' || b == 'O' then numRadix isOctDigitB 8 rest
    else numRadix isBinDigitB 2 rest
  | _ => JSNum.nan

/-- JS `Number(string)` on a character list: trim, empty is `0`, radix
literals, otherwise a signed decimal literal or `Infinity`; anything else is
`NaN`.  This is the coercion applied by `.map(Number)` in the latest
revision's `pollOnce` (src/unnamed/part_000 line 136). -/
def jsNumberL (s : List Char) : JSNum :=
  let cs := jsTrim s
  if cs.isEmpty then JSNum.fin ⟨0, 0⟩
  else if isRadixLead cs then jsRadix cs
  else jsNumSigned cs

/-- JS `Number(string)` on a `String`. -/
def jsNumber (s : String) : JSNum := jsNumberL s.data

/-- Does the string (after sign) start with the `0x` lead of a `parseInt`
hex literal? -/
def isHexLead (cs : List Char) : Bool :=
  match cs with
  | a :: b :: _ => (a == '0') && ((b == 'x') || (b == 'X'))
  | _ => false

/-- JS `parseInt(string)` (radix unspecified): strip leading whitespace,
optional sign, then either a `0x` hex-digit run or a decimal-digit run; the
run may be a strict prefix (trailing garbage is ignored); no digits means
`NaN`, modelled as `none`.  This is the parse used by the legacy revision
(src/index.js line 149). -/
def jsParseIntL (s : List Char) : Option Int :=
  let cs := s.dropWhile jsWhitespace
  let sg := pSignB cs
  let body : Option Int :=
    if isHexLead sg.2 then
      let hs := (sg.2.drop 2).takeWhile isHexDigitB
      if hs.isEmpty then none else some ((radixValue 16 hs : Int))
    else
      let ds := sg.2.takeWhile Char.isDigit
      if ds.isEmpty then none else some ((decValue ds : Int))
  match body with
  | none => none
  | some v => some (if sg.1 then v else -v)

/-- JS `parseInt(string)` on a `String`. -/
def jsParseInt (s : String) : Option Int := jsParseIntL s.data

/-- JS subtraction (`max - current`) on observed numbers: `NaN` propagates,
opposite infinities subtract to an infinity, equal infinities to `NaN`. -/
def jsSub : JSNum → JSNum → JSNum
  | JSNum.nan, _ => JSNum.nan
  | _, JSNum.nan => JSNum.nan
  | JSNum.fin a, JSNum.fin b =>
    JSNum.fin ⟨a.num * (10 : Int) ^ b.exp - b.num * (10 : Int) ^ a.exp, a.exp + b.exp⟩
  | JSNum.inf s, JSNum.fin _ => JSNum.inf s
  | JSNum.fin _, JSNum.inf s => JSNum.inf (!s)
  | JSNum.inf s, JSNum.inf t => if s = t then JSNum.nan else JSNum.inf s

/-- JS comparison `x > 0`: false on `NaN`, sign of the numerator otherwise. -/
def jsGtZero : JSNum → Bool
  | JSNum.nan => false
  | JSNum.inf isNeg => !isNeg
  | JSNum.fin v => decide (0 < v.num)

/-! ## Status-text parsing and the per-CRN seat decision -/

/-- JS `String.split` with the single-character separator `'/'`:
`"" → [""]`, separators at the ends produce empty fields. -/
def splitFields (sep : Char) : List Char → List (List Char)
  | [] => [[]]
  | c :: rest =>
    let r := splitFields sep rest
    if c = sep then [] :: r
    else
      match r with
      | f :: fs => (c :: f) :: fs
      | [] => [[c]]

/-- `status.split('/')` on the trimmed status-element text. -/
def statusFields (status : String) : List (List Char) := splitFields '/' status.data

/-- `Number` coercion of the destructured field `i` of the split
(`Number(undefined) = NaN` when the field is missing). -/
def numField (fs : List (List Char)) (i : Nat) : JSNum :=
  match fs.get? i with
  | some s => jsNumberL s
  | none => JSNum.nan

/-- `parseInt` coercion of the destructured field `i` of the split
(`parseInt(undefined) = NaN`, modelled as `none`). -/
def intField (fs : List (List Char)) (i : Nat) : Option Int :=
  match fs.get? i with
  | some s => jsParseIntL s
  | none => none

/-- The three per-CRN choices a revision can make from a status string. -/
inductive SeatDecision where
  | notify
  | skipNoSeats
  | parseFailure
deriving DecidableEq

/-- Per-CRN availability decision of the latest revision
(src/unnamed/part_000 lines 136-144): `[current, max] =
status.split('/').map(Number)`, notify when `max - current > 0`, otherwise
log the pair and keep the CRN; there is no NaN guard and no parse-failure
branch. -/
def latestDecision (status : String) : SeatDecision :=
  let fs := statusFields status
  if jsGtZero (jsSub (numField fs 1) (numField fs 0)) then SeatDecision.notify
  else SeatDecision.skipNoSeats

/-- Per-CRN availability decision of the legacy revision (src/index.js lines
149-161): `parseInt` on both fields, an `isNaN` guard making malformed
readings a silent per-CRN failure, and notification when
`availableSeats = max - current > 0`. -/
def legacyDecision (status : String) : SeatDecision :=
  let fs := statusFields status
  match intField fs 0, intField fs 1 with
  | some current, some mx =>
    if mx - current > 0 then SeatDecision.notify else SeatDecision.skipNoSeats
  | _, _ => SeatDecision.parseFailure

/-! ## The latest revision's per-CRN poll body and poll cycle -/

/-- Observable outcome of processing one CRN in a cycle of the latest
revision. -/
inductive CrnOutcome where
  | notified
  | noSeats
  | sendFailed
  | readError
deriving DecidableEq

/-- One iteration of the CRN loop in `pollOnce` (src/unnamed/part_000 lines
133-147).  `reading` is the outcome of the awaited status-element read
(`Except.error` when `waitForSelector`/`$eval` throws); `sendOk` tells
whether the awaited `sendMail` resolves.  Inside the `try`: parse the status
with `Number`, and when `max - current > 0` invoke the notifier — on success
`monitor.delete(crn)` runs, on a send exception the `catch` logs and the
registry is left untouched.  Returns (registry after the iteration, whether
the notifier was invoked, the branch taken). -/
def processCrn (reg : List String) (crn : String) (reading : Except Unit String)
    (sendOk : Bool) : List String × Bool × CrnOutcome :=
  match reading with
  | Except.error _ => (reg, false, CrnOutcome.readError)
  | Except.ok status =>
    let fs := statusFields status
    if jsGtZero (jsSub (numField fs 1) (numField fs 0)) then
      if sendOk then (reg.erase crn, true, CrnOutcome.notified)
      else (reg, true, CrnOutcome.sendFailed)
    else (reg, false, CrnOutcome.noSeats)

/-- Environment of one poll cycle: the page read and the mail send outcome
for each CRN. -/
structure CycleEnv where
  read : String → Except Unit String
  send : String → Bool

/-- The CRN loop of `pollOnce` (src/unnamed/part_000 lines 127-148): iterate
over the snapshot `monitor.all` taken at cycle start, threading the live
registry through each per-CRN body. -/
def pollOnce (env : CycleEnv) (reg : List String) : List String :=
  reg.foldl (fun r crn => (processCrn r crn (env.read crn) (env.send crn)).1) reg

/-! ## The latest revision's monitor loop -/

/-- `sleep(60_000)` back-off when the connectivity probe fails
(src/unnamed/part_000 line 179). -/
def CONN_BACKOFF_MS : Nat := 60000

/-- Default polling cadence: `Number(process.env.SEAT_CHECK_INTERVAL) ||
120_000` (src/unnamed/part_000 line 35). -/
def DEFAULT_CHECK_INTERVAL : Nat := 120000

/-- `withRetry`'s default attempt cap (src/unnamed/part_000 line 98). -/
def RETRY_ATTEMPTS : Nat := 3

/-- `withRetry`'s fixed inter-attempt delay in ms (src/unnamed/part_000
line 98). -/
def RETRY_DELAY_MS : Nat := 2000

/-- `withRetry(fn, attempts, delay)` (src/unnamed/part_000 lines 98-105):
try `fn` up to `attempts` times with a fixed delay between attempts; resolve
(`true`) on the first success, rethrow the last error (`false`) when the cap
is exhausted.  `attempt i` is the outcome of the `i`-th call of `fn`. -/
def withRetry (attempt : Nat → Bool) : Nat → Nat → Bool
  | _, 0 => false
  | i, n + 1 => if attempt i then true else withRetry attempt (i + 1) n

/-- Environment of the monitor loop: connectivity probe outcome per
iteration, page-navigation outcome per iteration and attempt, the poll-cycle
environment per iteration, and the configured cadence. -/
structure LoopEnv where
  conn : Nat → Bool
  navOk : Nat → Nat → Bool
  cycle : Nat → CycleEnv
  checkInterval : Nat

/-- Whether the `withRetry(() => page.goto(...))` call of iteration `t`
resolves (src/unnamed/part_000 line 183). -/
def navSucceeds (env : LoopEnv) (t : Nat) : Bool := withRetry (env.navOk t) 0 RETRY_ATTEMPTS

/-- Observable events of one run of `seatFinder`. -/
inductive LoopEv where
  | confirm
  | backoff (ms : Nat)
  | poll
  | cadence (ms : Nat)
  | exitCode (code : Nat)
deriving DecidableEq

/-- The `while (monitor.size)` loop of `seatFinder` (src/unnamed/part_000
lines 176-191), fuel-bounded.  Each iteration: if the registry is empty the
loop ends and `cleanup()` exits with code 0; otherwise gate on the
connectivity probe (on failure sleep 60 s and `continue`); then navigate
under `withRetry` — exhaustion of the cap rethrows out of `seatFinder` into
the top-level catch, which exits with code 1 (lines 196-233); then run
`pollOnce` and, if CRNs remain, sleep the cadence.  Returns (event trace,
final registry, exit code if the run ended within the fuel). -/
def loopRun (env : LoopEnv) : List String → Nat → Nat → List LoopEv × List String × Option Nat
  | reg, _, 0 => ([], reg, none)
  | reg, t, fuel + 1 =>
    if reg = [] then ([LoopEv.exitCode 0], reg, some 0)
    else if env.conn t = false then
      let r := loopRun env reg (t + 1) fuel
      (LoopEv.backoff CONN_BACKOFF_MS :: r.1, r.2)
    else if navSucceeds env t = false then ([LoopEv.exitCode 1], reg, some 1)
    else
      let reg2 := pollOnce (env.cycle t) reg
      let r := loopRun env reg2 (t + 1) fuel
      (LoopEv.poll :: (if reg2 = [] then ([] : List LoopEv) else [LoopEv.cadence env.checkInterval]) ++ r.1, r.2)

/-- `seatFinder` (src/unnamed/part_000 lines 154-191): before the loop, if
`monitor.confirmationSent` is still false, `await sendMail(...)` the start-of-
run confirmation and set the flag — this await is not inside any try/catch,
so a failed confirmation send rejects `seatFinder` and the top-level catch
exits with code 1 before any polling. -/
def seatFinderRun (env : LoopEnv) (confirmOk confirmationSent : Bool)
    (reg : List String) (fuel : Nat) : List LoopEv × List String × Option Nat :=
  if confirmationSent then loopRun env reg 0 fuel
  else if confirmOk then
    let r := loopRun env reg 0 fuel
    (LoopEv.confirm :: r.1, r.2)
  else ([LoopEv.exitCode 1], reg, some 1)

/-! ## The v2.0 `CourseMonitor` registry -/

/-- A course record of the v2.0 registry: `{ notified: false }`
(src/seat-finder.js line 454). -/
structure CourseRecord where
  notified : Bool
deriving DecidableEq

/-- JS `Map.set` on an association list with unique keys in insertion
order: an existing key keeps its position and gets the new value, a new key
is appended. -/
def mapSet (m : List (String × CourseRecord)) (k : String) (v : CourseRecord) :
    List (String × CourseRecord) :=
  if m.any (fun p => p.1 == k) then m.map (fun p => if p.1 == k then (k, v) else p)
  else m ++ [(k, v)]

/-- `CourseMonitor.add` of the v2.0 revision (src/seat-finder.js lines
453-455): `this.courses.set(crn, { notified: false })`. -/
def CourseMonitor.add (m : List (String × CourseRecord)) (crn : String) :
    List (String × CourseRecord) :=
  mapSet m crn ⟨false⟩

/-! ## Concrete environments used by witnesses and counterexamples -/

/-- A poll-cycle environment in which every read returns `29/30` (one open
seat) and every send succeeds. -/
def cycleAllOpen : CycleEnv := ⟨fun _ => Except.ok "29/30", fun _ => true⟩

/-- A loop environment in which connectivity always holds but every page
navigation attempt fails. -/
def envNavFail : LoopEnv := ⟨fun _ => true, fun _ _ => false, fun _ => cycleAllOpen, 120000⟩

/-- A loop environment in which the connectivity probe always reports
unreachable; the cadence is deliberately configured to 5 ms to exhibit that
the back-off does not depend on it. -/
def envConnDown : LoopEnv := ⟨fun _ => false, fun _ _ => true, fun _ => cycleAllOpen, 5⟩

/-- A loop environment in which everything succeeds. -/
def envAllGood : LoopEnv := ⟨fun _ => true, fun _ _ => true, fun _ => cycleAllOpen, 120000⟩

/-! ## Helper lemmas: digit strings under the JS coercions -/

/-- A digit character is `==`-distinct from any non-digit character. -/
theorem digit_beq_false (c x : Char) (hc : c.isDigit = true) (hx : x.isDigit = false) :
    (c == x) = false := by
  cases h : c == x
  · rfl
  · have hcx : c = x := eq_of_beq h
    subst hcx
    rw [hc] at hx
    exact Bool.noConfusion hx

/-- Digits are not JS whitespace. -/
theorem digit_not_ws (c : Char) (hc : c.isDigit = true) : jsWhitespace c = false := by
  simp only [jsWhitespace,
    digit_beq_false c ' ' hc (by decide), digit_beq_false c '\t' hc (by decide),
    digit_beq_false c '\n' hc (by decide), digit_beq_false c '\r' hc (by decide),
    digit_beq_false c '\x0b' hc (by decide), digit_beq_false c '\x0c' hc (by decide),
    digit_beq_false c '\xa0' hc (by decide), Bool.or_self, Bool.or_false]

/-- `dropWhile` is the identity when no element satisfies the predicate. -/
theorem dropWhile_eq_self_of_not (p : Char → Bool) (cs : List Char)
    (h : ∀ c ∈ cs, p c = false) : cs.dropWhile p = cs := by
  cases cs with
  | nil => rfl
  | cons a l => exact List.dropWhile_cons_of_neg (by simp [h a (List.mem_cons_self a l)])

/-- `takeWhile` is the identity when every element satisfies the predicate. -/
theorem takeWhile_eq_self_of_all (p : Char → Bool) (cs : List Char)
    (h : ∀ c ∈ cs, p c = true) : cs.takeWhile p = cs := by
  induction cs with
  | nil => rfl
  | cons a l ih =>
    rw [List.takeWhile_cons_of_pos (h a (List.mem_cons_self a l))]
    rw [ih (fun c hc => h c (List.mem_cons_of_mem a hc))]

/-- `dropWhile` drops everything when every element satisfies the predicate. -/
theorem dropWhile_eq_nil_of_all (p : Char → Bool) (cs : List Char)
    (h : ∀ c ∈ cs, p c = true) : cs.dropWhile p = [] := by
  induction cs with
  | nil => rfl
  | cons a l ih =>
    rw [List.dropWhile_cons_of_pos (h a (List.mem_cons_self a l))]
    exact ih (fun c hc => h c (List.mem_cons_of_mem a hc))

/-- The `Number` trim leaves an all-digit string unchanged. -/
theorem jsTrim_digits (ds : List Char) (h : ∀ c ∈ ds, c.isDigit = true) : jsTrim ds = ds := by
  unfold jsTrim
  rw [dropWhile_eq_self_of_not jsWhitespace ds (fun c hc => digit_not_ws c (h c hc))]
  rw [dropWhile_eq_self_of_not jsWhitespace ds.reverse
    (fun c hc => digit_not_ws c (h c (List.mem_reverse.mp hc)))]
  exact List.reverse_reverse ds

/-- No sign is consumed from a digit-headed string. -/
theorem pSignB_digits (d : Char) (tl : List Char) (hd : d.isDigit = true) :
    pSignB (d :: tl) = (true, d :: tl) := by
  simp [pSignB, digit_beq_false d '-' hd (by decide), digit_beq_false d '+' hd (by decide)]

/-- An all-digit string has no `0x`/`0o`/`0b` radix lead. -/
theorem radixLead_digits (ds : List Char) (h : ∀ c ∈ ds, c.isDigit = true) :
    isRadixLead ds = false := by
  cases ds with
  | nil => rfl
  | cons a t =>
    cases t with
    | nil => rfl
    | cons b t2 =>
      have hb : b.isDigit = true := h b (by simp)
      simp [isRadixLead,
        digit_beq_false b 'x' hb (by decide), digit_beq_false b 'X' hb (by decide),
        digit_beq_false b 'o' hb (by decide), digit_beq_false b 'O' hb (by decide),
        digit_beq_false b 'b' hb (by decide), digit_beq_false b 'B' hb (by decide)]

/-- An all-digit string has no `parseInt` hex lead. -/
theorem hexLead_digits (ds : List Char) (h : ∀ c ∈ ds, c.isDigit = true) :
    isHexLead ds = false := by
  cases ds with
  | nil => rfl
  | cons a t =>
    cases t with
    | nil => rfl
    | cons b t2 =>
      have hb : b.isDigit = true := h b (by simp)
      simp [isHexLead,
        digit_beq_false b 'x' hb (by decide), digit_beq_false b 'X' hb (by decide)]

/-- A nonempty all-digit string is not empty as a list. -/
theorem isEmpty_false_of_ne (ds : List Char) (hne : ds ≠ []) : ds.isEmpty = false := by
  cases ds with
  | nil => exact absurd rfl hne
  | cons a l => rfl

/-- The strict decimal grammar accepts a nonempty all-digit string and yields
its decimal value at scale 0. -/
theorem jsDecimal_digits (ds : List Char) (hne : ds ≠ []) (h : ∀ c ∈ ds, c.isDigit = true) :
    jsDecimal ds = some ⟨(decValue ds : Int), 0⟩ := by
  simp only [jsDecimal, takeWhile_eq_self_of_all Char.isDigit ds h,
    dropWhile_eq_nil_of_all Char.isDigit ds h]
  simp [isEmpty_false_of_ne ds hne, jsExponentApply]

/-- JS `Number` on a nonempty all-digit string yields its decimal value. -/
theorem jsNumberL_digits (ds : List Char) (hne : ds ≠ []) (h : ∀ c ∈ ds, c.isDigit = true) :
    jsNumberL ds = JSNum.fin ⟨(decValue ds : Int), 0⟩ := by
  obtain ⟨d, tl, rfl⟩ : ∃ d tl, ds = d :: tl := by
    cases ds with
    | nil => exact absurd rfl hne
    | cons d tl => exact ⟨d, tl, rfl⟩
  have hd : d.isDigit = true := h d (List.mem_cons_self d tl)
  have hninf : ¬(d :: tl = infChars) := by
    intro he
    unfold infChars at he
    have hdI : d = 'I' := by injection he
    rw [hdI] at hd
    exact absurd hd (by decide)
  simp only [jsNumberL, jsTrim_digits _ h, isEmpty_false_of_ne _ hne, radixLead_digits _ h,
    Bool.false_eq_true, if_false]
  simp only [jsNumSigned, pSignB_digits d tl hd]
  rw [if_neg hninf]
  rw [jsDecimal_digits _ hne h]
  simp

/-- JS `parseInt` on a nonempty all-digit string yields its decimal value. -/
theorem jsParseIntL_digits (ds : List Char) (hne : ds ≠ []) (h : ∀ c ∈ ds, c.isDigit = true) :
    jsParseIntL ds = some ((decValue ds : Int)) := by
  obtain ⟨d, tl, rfl⟩ : ∃ d tl, ds = d :: tl := by
    cases ds with
    | nil => exact absurd rfl hne
    | cons d tl => exact ⟨d, tl, rfl⟩
  have hd : d.isDigit = true := h d (List.mem_cons_self d tl)
  simp only [jsParseIntL,
    dropWhile_eq_self_of_not jsWhitespace _ (fun c hc => digit_not_ws c (h c hc)),
    pSignB_digits d tl hd, hexLead_digits _ h,
    takeWhile_eq_self_of_all Char.isDigit _ h]
  simp [isEmpty_false_of_ne _ hne]

/-- `jsSub` on two finite values. -/
theorem jsSub_fin (x y : DecNum) :
    jsSub (JSNum.fin x) (JSNum.fin y) =
      JSNum.fin ⟨x.num * (10 : Int) ^ y.exp - y.num * (10 : Int) ^ x.exp, x.exp + y.exp⟩ := rfl

/-- `jsGtZero` on a finite value. -/
theorem jsGtZero_fin (v : DecNum) : jsGtZero (JSNum.fin v) = decide (0 < v.num) := rfl

/-! ## Helper lemmas: the monitor loop and the v2.0 registry -/

/-- The monitor loop itself never emits a confirmation event: the
confirmation send sits before the loop in `seatFinder`. -/
theorem loopRun_no_confirm (env : LoopEnv) (reg : List String) (t fuel : Nat) :
    LoopEv.confirm ∉ (loopRun env reg t fuel).1 := by
  induction fuel generalizing reg t with
  | zero => simp [loopRun]
  | succ n ih =>
    simp only [loopRun]
    by_cases h1 : reg = []
    · simp [h1]
    · rw [if_neg h1]
      by_cases h2 : env.conn t = false
      · rw [if_pos h2]
        show LoopEv.confirm ∉ LoopEv.backoff CONN_BACKOFF_MS :: (loopRun env reg (t + 1) n).1
        intro he
        rcases List.mem_cons.mp he with h5 | h5
        · exact LoopEv.noConfusion h5
        · exact ih reg (t + 1) h5
      · rw [if_neg h2]
        by_cases h3 : navSucceeds env t = false
        · rw [if_pos h3]
          simp
        · rw [if_neg h3]
          show LoopEv.confirm ∉ LoopEv.poll ::
            (if pollOnce (env.cycle t) reg = [] then ([] : List LoopEv)
              else [LoopEv.cadence env.checkInterval]) ++
            (loopRun env (pollOnce (env.cycle t) reg) (t + 1) n).1
          intro he
          rcases List.mem_cons.mp he with h5 | h5
          · exact LoopEv.noConfusion h5
          · rcases List.mem_append.mp h5 with h6 | h6
            · by_cases h4 : pollOnce (env.cycle t) reg = [] <;> simp [h4] at h6
            · exact ih _ (t + 1) h6

/-- A course record whose `notified` field is false is the record `add`
writes. -/
theorem courseRecord_eq_false (r : CourseRecord) (h : r.notified = false) :
    r = ⟨false⟩ := by
  cases r with
  | mk b => cases h; rfl

/-- `Map.set` with the value already stored at an existing key is the
identity. -/
theorem mapSet_self (m : List (String × CourseRecord)) (crn : String)
    (hmem : crn ∈ m.map Prod.fst)
    (hv : ∀ p ∈ m, p.1 = crn → p.2 = (⟨false⟩ : CourseRecord)) :
    mapSet m crn ⟨false⟩ = m := by
  unfold mapSet
  have hany : m.any (fun p => p.1 == crn) = true := by
    obtain ⟨p, hp, hp1⟩ := List.mem_map.mp hmem
    exact List.any_eq_true.mpr ⟨p, hp, by simp [hp1]⟩
  rw [if_pos hany]
  have hid : ∀ p ∈ m,
      (fun p : String × CourseRecord => if p.1 == crn then (crn, (⟨false⟩ : CourseRecord)) else p) p
        = id p := by
    intro p hp
    obtain ⟨p1, p2⟩ := p
    by_cases h : p1 = crn
    · subst h
      have h2 : p2 = (⟨false⟩ : CourseRecord) := hv (p1, p2) hp rfl
      simp [h2]
    · simp [h]
  rw [List.map_congr_left hid, List.map_id]

/-- After `add`, the key is present. -/
theorem add_key_mem (m : List (String × CourseRecord)) (crn : String) :
    crn ∈ (CourseMonitor.add m crn).map Prod.fst := by
  unfold CourseMonitor.add mapSet
  by_cases h : m.any (fun p => p.1 == crn) = true
  · rw [if_pos h]
    obtain ⟨p, hp, hpb⟩ := List.any_eq_true.mp h
    rw [List.map_map]
    refine List.mem_map.mpr ⟨p, hp, ?_⟩
    simp only [Function.comp_apply, hpb, if_pos]
  · rw [if_neg h]
    simp

/-- After `add`, every record stored at the key is `{ notified: false }`. -/
theorem add_val_false (m : List (String × CourseRecord)) (crn : String) :
    ∀ p ∈ CourseMonitor.add m crn, p.1 = crn → p.2 = (⟨false⟩ : CourseRecord) := by
  intro p hp hp1
  unfold CourseMonitor.add mapSet at hp
  by_cases h : m.any (fun q => q.1 == crn) = true
  · rw [if_pos h] at hp
    obtain ⟨q, hq, hfq⟩ := List.mem_map.mp hp
    by_cases h2 : q.1 = crn
    · rw [if_pos (by simp [h2])] at hfq
      rw [← hfq]
    · rw [if_neg (by simp [h2])] at hfq
      subst hfq
      exact absurd hp1 h2
  · rw [if_neg h] at hp
    rcases List.mem_append.mp hp with hl | hr
    · exact absurd (List.any_eq_true.mpr ⟨p, hl, by simp [hp1]⟩) h
    · simp only [List.mem_singleton] at hr
      rw [hr]

/-! ## Claims -/

/-- C1: in a poll cycle of the latest revision, for every CRN whose reading
succeeds and whose parsed status shows `openSeats = capacity - current > 0`,
the notifier is invoked, and the CRN is removed from the registry if and
only if that send succeeds; if the send throws, the registry still contains
the CRN afterward. -/
theorem crn_removed_iff_send_succeeds (reg : List String) (crn status : String)
    (sendOk : Bool) (hnd : reg.Nodup) (hmem : crn ∈ reg)
    (hopen : jsGtZero (jsSub (numField (statusFields status) 1)
      (numField (statusFields status) 0)) = true) :
    (processCrn reg crn (Except.ok status) sendOk).2.1 = true ∧
      (crn ∉ (processCrn reg crn (Except.ok status) sendOk).1 ↔ sendOk = true) := by
  simp only [processCrn, hopen, if_true]
  cases sendOk with
  | true =>
    refine ⟨rfl, ?_⟩
    simp [List.Nodup.not_mem_erase hnd]
  | false =>
    refine ⟨rfl, ?_⟩
    simp [hmem]

/-- Witness for C1: one monitored CRN reading `29/30`, send succeeding. -/
theorem crn_removed_iff_send_succeeds_witness :
    (processCrn ["12345"] "12345" (Except.ok "29/30") true).2.1 = true ∧
      ("12345" ∉ (processCrn ["12345"] "12345" (Except.ok "29/30") true).1 ↔ true = true) :=
  crn_removed_iff_send_succeeds ["12345"] "12345" "29/30" true (by decide) (by decide)
    (by decide)

/-- C2: evaluation of the latest revision's per-CRN body at malformed status
texts.  For `"/30"` (empty `current` field, not a well-formed integer pair)
the code computes `Number("") = 0`, finds 30 open seats, invokes the
notifier and removes the CRN — contradicting the claim that malformed
readings cause no notification and no removal.  For `"abc/def"` the NaN
comparison routes the reading into the same zero-open-seat else-branch as a
full section, not into any failure handling. -/
theorem malformed_status_notifies_eval :
    processCrn ["12345"] "12345" (Except.ok "/30") true = ([], true, CrnOutcome.notified) ∧
      latestDecision "/30" = SeatDecision.notify ∧
      legacyDecision "/30" = SeatDecision.parseFailure ∧
      processCrn ["12345"] "12345" (Except.ok "abc/def") true
        = (["12345"], false, CrnOutcome.noSeats) := by decide

/-- C3 (amended): in the latest revision, when every navigation attempt of an
iteration fails, `withRetry` exhausts its cap of 3 attempts and rethrows; the
loop does not regain control — the run ends immediately with exit code 1,
with no cadence sleep and no further cycle. -/
theorem nav_exhaustion_fatal (env : LoopEnv) (reg : List String) (t fuel : Nat)
    (hne : reg ≠ []) (hconn : env.conn t = true) (hnav : navSucceeds env t = false) :
    loopRun env reg t (fuel + 1) = ([LoopEv.exitCode 1], reg, some 1) ∧
      RETRY_ATTEMPTS = 3 := by
  refine ⟨?_, rfl⟩
  simp only [loopRun]
  rw [if_neg hne, if_neg (by simp [hconn]), if_pos hnav]

/-- Witness for C3's amended theorem. -/
theorem nav_exhaustion_fatal_witness :
    loopRun envNavFail ["12345"] 0 (4 + 1) = ([LoopEv.exitCode 1], ["12345"], some 1) ∧
      RETRY_ATTEMPTS = 3 :=
  nav_exhaustion_fatal envNavFail ["12345"] 0 4 (by decide) rfl (by decide)

/-- Counterexample to C3 as stated: with connectivity up and navigation
failing on all attempts, the run aborts with exit code 1 — it does not
proceed to the sleep/retry path and the cycle is not survived. -/
theorem nav_exhaustion_aborts_cx :
    loopRun envNavFail ["12345"] 0 5 = ([LoopEv.exitCode 1], ["12345"], some 1) ∧
      LoopEv.cadence 120000 ∉ (loopRun envNavFail ["12345"] 0 5).1 ∧
      (loopRun envNavFail ["12345"] 0 5).2.2 ≠ some 0 := by decide

/-- C4 (amended): in the latest revision a failed start-of-run confirmation
send is fatal: the exception propagates out of `seatFinder` to the top-level
catch, the process exits with code 1, and no poll cycle runs. -/
theorem confirm_fail_is_fatal (env : LoopEnv) (reg : List String) (fuel : Nat) :
    seatFinderRun env false false reg fuel = ([LoopEv.exitCode 1], reg, some 1) ∧
      LoopEv.poll ∉ (seatFinderRun env false false reg fuel).1 := by
  refine ⟨rfl, ?_⟩
  show LoopEv.poll ∉ [LoopEv.exitCode 1]
  decide

/-- Counterexample to C4 as stated: with the confirmation send failing, the
run ends with exit code 1 and the trace contains no poll event — monitoring
is aborted instead of proceeding to polling. -/
theorem confirm_fail_aborts_cx :
    seatFinderRun envAllGood false false ["12345"] 5 = ([LoopEv.exitCode 1], ["12345"], some 1) ∧
      LoopEv.poll ∉ (seatFinderRun envAllGood false false ["12345"] 5).1 := by decide

/-- C5 (amended): when the connectivity probe reports unreachable, the loop
waits a fixed 60000 ms back-off before re-checking; the back-off is
independent of the configured cadence (the same event is emitted for every
`checkInterval`), but it is shorter than the default 120000 ms cadence, not
longer. -/
theorem backoff_fixed_and_shorter (env : LoopEnv) (reg : List String) (t fuel : Nat)
    (hne : reg ≠ []) (hconn : env.conn t = false) :
    (loopRun env reg t (fuel + 1)).1.head? = some (LoopEv.backoff CONN_BACKOFF_MS) ∧
      CONN_BACKOFF_MS = 60000 ∧ CONN_BACKOFF_MS < DEFAULT_CHECK_INTERVAL := by
  refine ⟨?_, rfl, by decide⟩
  simp only [loopRun]
  rw [if_neg hne, if_pos hconn]
  rfl

/-- Witness for C5's amended theorem, with a cadence configured to 5 ms. -/
theorem backoff_fixed_and_shorter_witness :
    (loopRun envConnDown ["12345"] 0 (0 + 1)).1.head? = some (LoopEv.backoff CONN_BACKOFF_MS) ∧
      CONN_BACKOFF_MS = 60000 ∧ CONN_BACKOFF_MS < DEFAULT_CHECK_INTERVAL :=
  backoff_fixed_and_shorter envConnDown ["12345"] 0 0 (by decide) rfl

/-- Counterexample to C5 as stated: the 60000 ms connectivity back-off is
not longer than the 120000 ms default cadence. -/
theorem backoff_not_longer_cx :
    CONN_BACKOFF_MS = 60000 ∧ DEFAULT_CHECK_INTERVAL = 120000 ∧
      ¬(CONN_BACKOFF_MS > DEFAULT_CHECK_INTERVAL) := by decide

/-- C6: when a poll cycle empties the registry, the loop ends in its
terminal success state: the trace of the iteration is exactly a poll
followed by exit code 0 — no cadence sleep and no further cycle occur. -/
theorem empty_registry_terminates (env : LoopEnv) (reg : List String) (t fuel : Nat)
    (hne : reg ≠ []) (hconn : env.conn t = true) (hnav : navSucceeds env t = true)
    (hempty : pollOnce (env.cycle t) reg = []) :
    loopRun env reg t (fuel + 2) = ([LoopEv.poll, LoopEv.exitCode 0], [], some 0) := by
  show loopRun env reg t ((fuel + 1) + 1) = _
  simp only [loopRun]
  rw [if_neg hne, if_neg (by simp [hconn]), if_neg (by simp [hnav])]
  simp only [hempty, if_pos rfl]
  simp [loopRun]

/-- Witness for C6: one CRN whose reading shows an open seat empties the
registry, and the run terminates. -/
theorem empty_registry_terminates_witness :
    loopRun envAllGood ["12345"] 0 (0 + 2) = ([LoopEv.poll, LoopEv.exitCode 0], [], some 0) :=
  empty_registry_terminates envAllGood ["12345"] 0 0 (by decide) rfl (by decide) (by decide)

/-- C7: the start-of-run confirmation email is attempted at most once per
run: the trace of a whole `seatFinder` run contains at most one confirmation
event, no matter how many cycles the fuel allows. -/
theorem confirmation_at_most_once (env : LoopEnv) (confirmOk confirmationSent : Bool)
    (reg : List String) (fuel : Nat) :
    ((seatFinderRun env confirmOk confirmationSent reg fuel).1.count LoopEv.confirm) ≤ 1 := by
  have h0 : ∀ r t f, ((loopRun env r t f).1.count LoopEv.confirm) = 0 := fun r t f =>
    List.count_eq_zero.mpr (loopRun_no_confirm env r t f)
  unfold seatFinderRun
  cases confirmationSent with
  | true => simp [h0]
  | false =>
    cases confirmOk with
    | true => simp [List.count_cons, h0]
    | false => simp

/-- C8: while the connectivity probe reports unreachable for N consecutive
checks, the loop only emits back-off sleeps: no poll cycle executes and the
registry — key list, records and order — is exactly the one it started
with. -/
theorem conn_down_no_poll_registry_unchanged (env : LoopEnv) (reg : List String)
    (N t : Nat) (hne : reg ≠ []) (hconn : ∀ i, i < N → env.conn (t + i) = false) :
    loopRun env reg t N = (List.replicate N (LoopEv.backoff CONN_BACKOFF_MS), reg, none) := by
  induction N generalizing t with
  | zero => simp [loopRun]
  | succ n ih =>
    simp only [loopRun]
    rw [if_neg hne]
    have h0 : env.conn t = false := by
      have := hconn 0 (Nat.succ_pos n)
      simpa using this
    rw [if_pos h0]
    have htail := ih (t + 1) (fun i hi => by
      have := hconn (i + 1) (by omega)
      rw [show t + 1 + i = t + (i + 1) by omega]
      exact this)
    rw [htail]
    simp [List.replicate_succ]

/-- Witness for C8: three consecutive unreachable checks leave the registry
untouched and produce three back-off events. -/
theorem conn_down_no_poll_registry_unchanged_witness :
    loopRun envConnDown ["12345"] 0 3
      = (List.replicate 3 (LoopEv.backoff CONN_BACKOFF_MS), ["12345"], none) :=
  conn_down_no_poll_registry_unchanged envConnDown ["12345"] 3 0 (by decide)
    (fun _ _ => rfl)

/-- C9: the v2.0 registry `add` is idempotent with respect to duplicates:
re-adding a CRN already present (all records being `{ notified: false }`)
leaves the registry — key set, size, insertion order, records — unchanged,
and adding a CRN twice is observationally equal to adding it once. -/
theorem registry_add_idempotent (m m2 : List (String × CourseRecord)) (crn : String)
    (hmem : crn ∈ m.map Prod.fst) (hrec : ∀ p ∈ m, p.2.notified = false) :
    CourseMonitor.add m crn = m ∧
      CourseMonitor.add (CourseMonitor.add m2 crn) crn = CourseMonitor.add m2 crn := by
  constructor
  · exact mapSet_self m crn hmem
      (fun p hp _ => courseRecord_eq_false p.2 (hrec p hp))
  · exact mapSet_self _ crn (add_key_mem m2 crn) (add_val_false m2 crn)

/-- Witness for C9. -/
theorem registry_add_idempotent_witness :
    CourseMonitor.add [("12345", ⟨false⟩)] "12345" = [("12345", ⟨false⟩)] ∧
      CourseMonitor.add (CourseMonitor.add [] "12345") "12345"
        = CourseMonitor.add [] "12345" :=
  registry_add_idempotent [("12345", ⟨false⟩)] [] "12345" (by decide) (by decide)

/-- C10 (amended): the legacy `parseInt`-with-`isNaN`-guard decision and the
latest `Number` decision agree on every status string whose first two
`/`-separated fields are nonempty decimal-digit strings (the well-formed
`current/capacity` readings); on other strings they can differ. -/
theorem legacy_latest_agree_on_integer_fields (status : String) (a b : List Char)
    (rest : List (List Char)) (hsplit : statusFields status = a :: b :: rest)
    (ha : a ≠ []) (hb : b ≠ []) (hda : ∀ c ∈ a, c.isDigit = true)
    (hdb : ∀ c ∈ b, c.isDigit = true) :
    legacyDecision status = latestDecision status := by
  simp only [legacyDecision, latestDecision, hsplit, intField, numField,
    List.get?_cons_zero, List.get?_cons_succ]
  rw [jsParseIntL_digits a ha hda, jsParseIntL_digits b hb hdb,
    jsNumberL_digits a ha hda, jsNumberL_digits b hb hdb]
  simp only [jsSub_fin, jsGtZero_fin, pow_zero, mul_one]
  by_cases hlt : (0 : Int) < (decValue b : Int) - (decValue a : Int)
  · simp [hlt, gt_iff_lt]
  · simp [hlt, gt_iff_lt]

/-- Witness for C10's amended theorem at the reading `29/30`. -/
theorem legacy_latest_agree_witness :
    legacyDecision "29/30" = latestDecision "29/30" :=
  legacy_latest_agree_on_integer_fields "29/30" ['2', '9'] ['3', '0'] [] (by decide)
    (by decide) (by decide) (by decide) (by decide)

/-- Counterexample to C10 as stated: at the status string `29abc/30` the
legacy revision notifies (`parseInt("29abc") = 29`, one open seat) while the
latest revision skips (`Number("29abc") = NaN`), so the two revisions'
decisions are not equivalent on every status string. -/
theorem legacy_latest_decisions_differ_cx :
    legacyDecision "29abc/30" = SeatDecision.notify ∧
      latestDecision "29abc/30" = SeatDecision.skipNoSeats ∧
      legacyDecision "29abc/30" ≠ latestDecision "29abc/30" := by decide
